import Mathlib

/-!
Verification of the HaikuBox bird-data dashboard pipeline (src/app.py).

The development shallowly embeds the two pipeline stages of the source:

* `parse_contents` (app.py lines 14-41): ingestion and normalization of an
  uploaded CSV payload.  A raw CSV row is modelled as five optional text
  cells (`RawRow`, a missing/empty cell is `none`); byte decoding, the
  metadata line and the header line are presentation-level concerns outside
  the pipeline.  The stages mirror the source order exactly: numeric
  coercion with zero fill (lines 26-27), the `dropna` admission filter
  (line 30), date/time parsing with `errors="coerce"` (lines 33, 36), and
  the row-wise `pd.Timestamp.combine` (line 39).  `pd.Timestamp.combine`
  raises when handed a `NaT` date or time (a `NaT` date has no valid
  year/month/day for the `Timestamp` range, and a `NaT` time is not a
  `datetime.time`), so the combine stage is `Except`-valued and the first
  failing row aborts the whole ingestion, as the exception does in pandas.

* `update_dashboard` (app.py lines 151-225): the derived-view computation.
  Numbers (`Score`, `Count`, thresholds) are modelled as exact rationals.
  `pandas.sort_values` is modelled as a stable insertion sort by the sort
  key; every theorem below about sorted output depends only on the key
  order, never on the order of entries whose sort keys tie (the source
  uses numpy's default quicksort, whose tie order is unspecified).
  `groupby` (with its default `sort=True`) is modelled as: deduplicate the
  key column, sort the keys, and pair each key with the sum of `Count`
  over the rows having that key.

String-processing helpers (lowercasing, splitting, ordering) are defined
over character lists so that every definition evaluates inside the kernel;
they agree with Python's code-point-wise string semantics.
-/

set_option maxRecDepth 4000

namespace HaikuBox

/-! ## Numeric coercion: `pd.to_numeric(..., errors="coerce")` (app.py lines 26-27)

`parseNumeric` models float parsing of a text cell for the decimal forms
`[+|-] digits [. digits]`, `[+|-] . digits` and `[+|-] digits .`
(the forms that occur in this data; exotic float syntax such as exponents,
`inf` or `nan` text is not modelled).  On any other text it returns `none`,
which pandas turns into NaN and line 26-27's `fillna(0)` turns into `0`. -/

def digitsToNat (cs : List Char) : Nat :=
  cs.foldl (fun a c => a * 10 + (c.toNat - 48)) 0

def parseUnsignedDec (cs : List Char) : Option ℚ :=
  let ip := cs.takeWhile Char.isDigit
  let rest := cs.dropWhile Char.isDigit
  match rest with
  | [] => if ip.isEmpty then none else some (digitsToNat ip : ℚ)
  | '.' :: fr =>
      if fr.all Char.isDigit && (!ip.isEmpty || !fr.isEmpty) then
        some ((digitsToNat ip : ℚ) + (digitsToNat fr : ℚ) / (10 : ℚ) ^ fr.length)
      else none
  | _ => none

def parseNumeric (s : String) : Option ℚ :=
  match s.toList with
  | [] => none
  | '-' :: cs => (parseUnsignedDec cs).map (fun q => -q)
  | '+' :: cs => parseUnsignedDec cs
  | cs => parseUnsignedDec cs

/-- The numeric value of a cell after `to_numeric(...).fillna(0)`:
a missing cell or a failed parse becomes `0`. -/
def coercedNum (o : Option String) : ℚ :=
  (o.bind parseNumeric).getD 0

/-! ## Date parsing: `pd.to_datetime(..., format="%d-%b-%Y", errors="coerce")` (line 33)

`%d` is a 1-2 digit day, `%b` a case-insensitive three-letter English month
abbreviation, `%Y` a year of up to four digits.  A parse that succeeds
syntactically still yields `NaT` when the resulting date falls outside the
nanosecond `Timestamp` range (1677-09-21 00:12:43 to 2262-04-11 23:47:16);
at date granularity that admits exactly 1677-09-22 through 2262-04-11. -/

structure Date where
  year : Nat
  month : Nat
  day : Nat
deriving DecidableEq, Repr

structure Time where
  hour : Nat
  minute : Nat
  second : Nat
deriving DecidableEq, Repr

def splitOnChar (sep : Char) : List Char → List (List Char)
  | [] => [[]]
  | c :: rest =>
      let r := splitOnChar sep rest
      if c = sep then [] :: r
      else
        match r with
        | [] => [[c]]
        | h :: t => (c :: h) :: t

def lowerChar (c : Char) : Char :=
  if 65 ≤ c.toNat && c.toNat ≤ 90 then Char.ofNat (c.toNat + 32) else c

def monthAbbrevs : List (List Char) :=
  [['j','a','n'], ['f','e','b'], ['m','a','r'], ['a','p','r'], ['m','a','y'], ['j','u','n'],
   ['j','u','l'], ['a','u','g'], ['s','e','p'], ['o','c','t'], ['n','o','v'], ['d','e','c']]

def parseMonthAbbrev (cs : List Char) : Option Nat :=
  let i := monthAbbrevs.indexOf (cs.map lowerChar)
  if i < 12 then some (i + 1) else none

def isLeapYear (y : Nat) : Bool :=
  (y % 4 = 0 && y % 100 ≠ 0) || y % 400 = 0

def daysInMonth (y m : Nat) : Nat :=
  if m = 2 then (if isLeapYear y then 29 else 28)
  else if m = 4 || m = 6 || m = 9 || m = 11 then 30
  else 31

def dateInBounds (d : Date) : Bool :=
  (1677 < d.year || (d.year = 1677 && (9 < d.month || (d.month = 9 && 22 ≤ d.day)))) &&
  (d.year < 2262 || (d.year = 2262 && (d.month < 4 || (d.month = 4 && d.day ≤ 11))))

/-- A 1-2 digit numeric field (`%d`, `%H`, `%M`, `%S`). -/
def parseField12 (cs : List Char) : Option Nat :=
  if (cs.length = 1 || cs.length = 2) && cs.all Char.isDigit then
    some (digitsToNat cs)
  else none

def parseDate (s : String) : Option Date :=
  match splitOnChar '-' s.toList with
  | [ds, ms, ys] =>
      match parseField12 ds, parseMonthAbbrev ms with
      | some d, some m =>
          if 1 ≤ ys.length && ys.length ≤ 4 && ys.all Char.isDigit then
            let y := digitsToNat ys
            if 1 ≤ d && d ≤ daysInMonth y m && dateInBounds ⟨y, m, d⟩ then
              some ⟨y, m, d⟩
            else none
          else none
      | _, _ => none
  | _ => none

/-- Time parsing: `pd.to_datetime(..., format="%H:%M:%S", errors="coerce").dt.time`
(line 36). -/
def parseTime (s : String) : Option Time :=
  match splitOnChar ':' s.toList with
  | [hs, ms, ss] =>
      match parseField12 hs, parseField12 ms, parseField12 ss with
      | some h, some m, some sec =>
          if h ≤ 23 && m ≤ 59 && sec ≤ 59 then some ⟨h, m, sec⟩ else none
      | _, _, _ => none
  | _ => none

/-! ## The ingestion pipeline `parse_contents` (lines 14-41) -/

/-- One raw CSV data row restricted to the five `usecols` columns;
an empty cell reads as `none` (pandas NaN). -/
structure RawRow where
  species : Option String
  localDate : Option String
  localTime : Option String
  score : Option String
  count : Option String
deriving DecidableEq, Repr

/-- A row after the numeric coercion of lines 26-27: `Score` and `Count` are
now numbers (never null, thanks to `fillna(0)`), the other columns are
untouched text. -/
structure CoercedRow where
  species : Option String
  localDate : Option String
  localTime : Option String
  score : ℚ
  count : ℚ
deriving DecidableEq, Repr

def coerceRow (r : RawRow) : CoercedRow :=
  ⟨r.species, r.localDate, r.localTime, coercedNum r.score, coercedNum r.count⟩

/-- The admission check of line 30, `dropna(subset=["Species", "Score",
"Local Date", "Local Time"])`.  It runs on the coerced frame, where `Score`
can no longer be null, so only the three text columns decide admission;
`Count` is not in the subset at all. -/
def admitRow (c : CoercedRow) : Bool :=
  c.species.isSome && c.localDate.isSome && c.localTime.isSome

/-- A row after the date and time parses of lines 33 and 36
(`errors="coerce"`: a failed parse is `none`, i.e. NaT).  Admitted rows
always have a present species, so the text is unwrapped here. -/
structure ParsedRow where
  species : String
  localDate : Option Date
  localTime : Option Time
  score : ℚ
  count : ℚ
deriving DecidableEq, Repr

def parseDateTimeRow (c : CoercedRow) : ParsedRow :=
  ⟨c.species.getD "", c.localDate.bind parseDate, c.localTime.bind parseTime,
   c.score, c.count⟩

/-- The final normalized record: `DateTime` is represented by the pair of the
row's own parsed date and time, which line 39 combines. -/
structure NRow where
  species : String
  date : Date
  time : Time
  score : ℚ
  count : ℚ
deriving DecidableEq, Repr

/-- `pd.Timestamp.combine` also raises `OutOfBoundsDatetime` at the very top
of the `Timestamp` range: on 2262-04-11 only times up to 23:47:16 fit. -/
def combineInBounds (d : Date) (t : Time) : Bool :=
  !(d.year = 2262 && d.month = 4 && d.day = 11 && t.hour = 23 &&
    (t.minute > 47 || (t.minute = 47 && t.second ≥ 17)))

/-- Line 39, for one row: `pd.Timestamp.combine(row["Local Date"],
row["Local Time"])`.  A `NaT` date or time makes it raise (a `NaT` date
yields the out-of-range year 1, a `NaT` time is not a `datetime.time`). -/
def combineRow (p : ParsedRow) : Except String NRow :=
  match p.localDate, p.localTime with
  | some d, some t =>
      if combineInBounds d t then .ok ⟨p.species, d, t, p.score, p.count⟩
      else .error "Timestamp.combine: out of bounds"
  | _, _ => .error "Timestamp.combine raised on NaT"

/-- The row-wise `df.apply(..., axis=1)` of line 39: the first raising row
aborts the whole ingestion. -/
def combineAll : List ParsedRow → Except String (List NRow)
  | [] => .ok []
  | p :: ps =>
      match combineRow p with
      | .error e => .error e
      | .ok r =>
          match combineAll ps with
          | .error e => .error e
          | .ok rs => .ok (r :: rs)

/-- `parse_contents` (lines 14-41): coercion, admission filter, date/time
parse, row-wise combine — in the source's order. -/
def parse_contents (rows : List RawRow) : Except String (List NRow) :=
  combineAll (((rows.map coerceRow).filter admitRow).map parseDateTimeRow)

/-! ## Calendar helpers used by the views

`dt.month_name()` and `dt.day_name()` on the combined timestamp.  The weekday
is computed from the date by Sakamoto's congruence, shifted so that Monday
is index 0 as in `datetime.weekday`; `weekday_order` is the list of line 201. -/

def monthNames : List String :=
  ["January", "February", "March", "April", "May", "June", "July", "August",
   "September", "October", "November", "December"]

def monthName (m : Nat) : String := monthNames.getD (m - 1) ""

def weekday_order : List String :=
  ["Monday", "Tuesday", "Wednesday", "Thursday", "Friday", "Saturday", "Sunday"]

def sakamotoOffsets : List Nat := [0, 3, 2, 5, 0, 3, 5, 1, 4, 6, 2, 4]

def mondayIdx (d : Date) : Nat :=
  let y := if d.month < 3 then d.year - 1 else d.year
  ((y + y / 4 + y / 400 + sakamotoOffsets.getD (d.month - 1) 0 + d.day + 6) - y / 100) % 7

def dayName (d : Date) : String := weekday_order.getD (mondayIdx d) ""

/-! ## Sort-key orders

`sort_values` is modelled as a stable insertion sort under the relation
given by the sort key (see the header note on tie order).  Species names
are ordered code-point-wise as Python compares strings. -/

def strLtb : List Char → List Char → Bool
  | [], [] => false
  | [], _ :: _ => true
  | _ :: _, [] => false
  | a :: as, b :: bs => if a < b then true else if b < a then false else strLtb as bs

def strLe (a b : String) : Prop := strLtb b.toList a.toList = false

instance : DecidableRel strLe :=
  fun a b => inferInstanceAs (Decidable (strLtb b.toList a.toList = false))

/-- Ascending by the summed `Count` (sort key of line 183). -/
def countLe (a b : String × ℚ) : Prop := a.2 ≤ b.2

/-- Descending by the summed `Count` (sort key of lines 176 and 212). -/
def countGe (a b : String × ℚ) : Prop := b.2 ≤ a.2

instance : DecidableRel countLe := fun a b => inferInstanceAs (Decidable (a.2 ≤ b.2))

instance : DecidableRel countGe := fun a b => inferInstanceAs (Decidable (b.2 ≤ a.2))

instance : IsTotal (String × ℚ) countLe := ⟨fun a b => le_total a.2 b.2⟩

instance : IsTotal (String × ℚ) countGe := ⟨fun a b => le_total b.2 a.2⟩

instance : IsTrans (String × ℚ) countLe := ⟨fun _ _ _ h h' => le_trans h h'⟩

instance : IsTrans (String × ℚ) countGe := ⟨fun _ _ _ h h' => le_trans h' h⟩

/-- The heatmap sort order of lines 202-203: weekday by its position in
`weekday_order` (Monday first, via the ordered `Categorical`), then hour. -/
def catIdx (w : String) : Nat := weekday_order.indexOf w

def catLe (a b : String × Nat) : Prop :=
  catIdx a.1 < catIdx b.1 ∨ (catIdx a.1 = catIdx b.1 ∧ a.2 ≤ b.2)

instance : DecidableRel catLe :=
  fun _ _ => inferInstanceAs (Decidable (_ ∨ _))

instance : IsTotal (String × Nat) catLe := by
  constructor
  intro a b
  rcases Nat.lt_trichotomy (catIdx a.1) (catIdx b.1) with h | h | h
  · exact Or.inl (Or.inl h)
  · rcases Nat.le_total a.2 b.2 with h2 | h2
    · exact Or.inl (Or.inr ⟨h, h2⟩)
    · exact Or.inr (Or.inr ⟨h.symm, h2⟩)
  · exact Or.inr (Or.inl h)

instance : IsTrans (String × Nat) catLe := by
  constructor
  rintro a b c (h | ⟨h, h2⟩) (h' | ⟨h', h2'⟩)
  · exact Or.inl (lt_trans h h')
  · exact Or.inl (h'.symm ▸ h)
  · exact Or.inl (h ▸ h')
  · exact Or.inr ⟨h.trans h', le_trans h2 h2'⟩

/-- The groupby key order for the monthly trend of line 220:
(month bucket, species), lexicographically. -/
def trendKeyLeb (a b : (Nat × Nat) × String) : Bool :=
  if a.1.1 ≠ b.1.1 then a.1.1 < b.1.1
  else if a.1.2 ≠ b.1.2 then a.1.2 < b.1.2
  else !(strLtb b.2.toList a.2.toList)

def trendKeyLe (a b : (Nat × Nat) × String) : Prop := trendKeyLeb a b = true

instance : DecidableRel trendKeyLe :=
  fun a b => inferInstanceAs (Decidable (trendKeyLeb a b = true))

/-! ## Grouped aggregation: `groupby(key)["Count"].sum()` with default `sort=True` -/

/-- The summed `Count` over the rows of `df` whose `key` is `k`. -/
def keyTotal {κ : Type} [DecidableEq κ] (key : NRow → κ) (df : List NRow) (k : κ) : ℚ :=
  ((df.filter (fun r => decide (key r = k))).map NRow.count).sum

/-- `df.groupby(key)["Count"].sum()`: one entry per distinct key, keys
sorted, each paired with its summed `Count`. -/
def groupByKey {κ : Type} [DecidableEq κ] (key : NRow → κ)
    (le : κ → κ → Prop) [DecidableRel le] (df : List NRow) : List (κ × ℚ) :=
  (((df.map key).dedup).insertionSort le).map (fun k => (k, keyTotal key df k))

/-- `groupby("Species", as_index=False)["Count"].sum()` (lines 175, 182, 212). -/
def groupSpecies (df : List NRow) : List (String × ℚ) :=
  groupByKey NRow.species strLe df

def speciesTotal (df : List NRow) (s : String) : ℚ := keyTotal NRow.species df s

/-! ## The derived views (`update_dashboard`, lines 151-225) -/

/-- Line 160-164: keep the rows whose date's month name equals the selected
month, unless "All" is selected. -/
def monthFilter (df : List NRow) (selected_month : String) : List NRow :=
  if selected_month = "All" then df
  else df.filter (fun r => monthName r.date.month = selected_month)

/-- Line 172: `df[df["Score"] >= min_score]`. -/
def scoreFilter (df : List NRow) (min_score : ℚ) : List NRow :=
  df.filter (fun r => min_score ≤ r.score)

/-- Lines 175-176: group the score-filtered rows by species, sum `Count`,
sort descending by the sum, keep the first 20. -/
def top_counts (df : List NRow) (min_score : ℚ) : List (String × ℚ) :=
  ((groupSpecies (scoreFilter df min_score)).insertionSort countGe).take 20

/-- Lines 182-183: same per-species sums, keep those at or below the rarity
threshold, sort ascending by the sum. -/
def rare_counts (df : List NRow) (min_score rarity_threshold : ℚ) : List (String × ℚ) :=
  ((groupSpecies (scoreFilter df min_score)).filter
      (fun p => decide (p.2 ≤ rarity_threshold))).insertionSort countLe

/-- Python's `int()` on a float: truncation toward zero. -/
def intPy (q : ℚ) : Int := if 0 ≤ q then q.floor else -((-q).floor)

/-- One `html.Li` text of lines 187-195: `f"{species}: {int(count)} sightings"`. -/
def rareEntry (p : String × ℚ) : String :=
  p.1 ++ ": " ++ toString (intPy p.2) ++ " sightings"

/-- Lines 187-195: the textual rare-species list, one entry per row of
`rare_counts`, in the same order. -/
def rare_list (df : List NRow) (min_score rarity_threshold : ℚ) : List String :=
  (rare_counts df min_score rarity_threshold).map rareEntry

/-- The heatmap groupby key of line 200: (weekday name, hour), both derived
from the row's own combined timestamp (lines 198-199). -/
def heatKey (r : NRow) : String × Nat := (dayName r.date, r.time.hour)

/-- Lines 198-203: filter the (already month-filtered) frame by the score
threshold, group by (weekday, hour), sum `Count`, and sort by the ordered
weekday `Categorical` then hour.  The intermediate alphabetical groupby
order is immaterial: the keys are distinct and line 203 re-sorts them. -/
def activity (df : List NRow) (min_score : ℚ) : List ((String × Nat) × ℚ) :=
  groupByKey heatKey catLe (scoreFilter df min_score)

/-- Line 212: top 10 species by total `Count` over the month-filtered frame
(no score filter), descending — the dropdown candidate list. -/
def all_species (df : List NRow) : List String :=
  (((groupSpecies df).insertionSort countGe).take 10).map Prod.fst

/-- Line 219: `to_period("M").to_timestamp()` — the date's calendar month
bucket, represented as (year, month). -/
def monthKey (d : Date) : Nat × Nat := (d.year, d.month)

def trendKey (r : NRow) : (Nat × Nat) × String := (monthKey r.date, r.species)

/-- Lines 218-220: keep the rows of the selected species, bucket by month,
group by (month, species), sum `Count`. -/
def trend_summary (df : List NRow) (selected : List String) : List (((Nat × Nat) × String) × ℚ) :=
  groupByKey trendKey trendKeyLe (df.filter (fun r => selected.contains r.species))

/-! ## The callback `update_dashboard` (lines 138-225) -/

/-- A chart figure as handed to the presentation layer: either a data-less
placeholder (`px.bar(title=...)` with no frame) or a chart over its data. -/
inductive Fig where
  | placeholder (title : String)
  | bar (data : List (String × ℚ)) (title : String)
  | heatmap (data : List ((String × Nat) × ℚ)) (title : String)
  | line (data : List (((Nat × Nat) × String) × ℚ)) (title : String)
deriving DecidableEq, Repr

/-- One returned callback value: a figure, the `html.Li` children of the
rare list, or the species-dropdown options. -/
inductive Out where
  | figure (f : Fig)
  | listItems (items : List String)
  | options (opts : List String)
deriving DecidableEq, Repr

/-- The six outputs declared by the callback decorator (lines 139-144). -/
def callback_outputs : List String :=
  ["top-graph.figure", "rare-bar-chart.figure", "rare-list.children",
   "heatmap-graph.figure", "species-trend-graph.figure", "species-dropdown.options"]

/-- `update_dashboard` (lines 151-225), returning the list of values the
callback returns, in order.  `Except.error` models an uncaught exception
escaping the callback. -/
def update_dashboard (contents : Option (List RawRow)) (min_score rarity_threshold : ℚ)
    (selected_month : String) (selected_species : Option (List String)) :
    Except String (List Out) :=
  match contents with
  | none =>
      let empty_fig := Fig.placeholder "Upload a CSV file to see data"
      .ok [.figure empty_fig, .figure empty_fig, .listItems [], .figure empty_fig,
           .figure empty_fig, .options []]
  | some rows =>
      match parse_contents rows with
      | .error e => .error e
      | .ok df0 =>
          let df := monthFilter df0 selected_month
          if df.isEmpty then
            let empty_fig := Fig.placeholder "No data for selected month"
            .ok [.figure empty_fig, .figure empty_fig,
                 .listItems ["No data available for selected month"], .figure empty_fig]
          else
            let cands := all_species df
            let sel :=
              match selected_species with
              | none => cands.take 3
              | some [] => cands.take 3
              | some l => l
            .ok [.figure (.bar (top_counts df min_score) "Top 20 Most Common Bird Species"),
                 .figure (.bar (rare_counts df min_score rarity_threshold)
                   ("Rare Birds (Score ≥ " ++ toString min_score ++ ", Sightings ≤ " ++
                     toString rarity_threshold ++ ")")),
                 .listItems (rare_list df min_score rarity_threshold),
                 .figure (.heatmap (activity df min_score) "Bird Activity by Hour and Weekday"),
                 .figure (.line (trend_summary df sel) "Monthly Sightings Trend"),
                 .options cands]

/-! ## Lemmas about the ingestion pipeline -/

theorem combineAll_ok_mem {l : List ParsedRow} {out : List NRow}
    (h : combineAll l = .ok out) :
    ∀ p ∈ l, ∀ r, combineRow p = .ok r → r ∈ out := by
  induction l generalizing out with
  | nil => intro p hp; cases hp
  | cons a l ih =>
      intro p hp r hr
      unfold combineAll at h
      cases ha : combineRow a with
      | error e => rw [ha] at h; exact Except.noConfusion h
      | ok ra =>
          rw [ha] at h
          cases hrest : combineAll l with
          | error e => rw [hrest] at h; exact Except.noConfusion h
          | ok rs =>
              rw [hrest] at h
              cases h
              cases hp with
              | head =>
                  rw [ha] at hr
                  cases hr
                  exact List.mem_cons_self _ _
              | tail _ hp =>
                  exact List.mem_cons_of_mem _ (ih hrest p hp r hr)

theorem combineAll_ok_elim {l : List ParsedRow} {out : List NRow}
    (h : combineAll l = .ok out) :
    ∀ r ∈ out, ∃ p ∈ l, combineRow p = .ok r := by
  induction l generalizing out with
  | nil =>
      unfold combineAll at h
      cases h
      intro r hr
      cases hr
  | cons a l ih =>
      unfold combineAll at h
      cases ha : combineRow a with
      | error e => rw [ha] at h; exact Except.noConfusion h
      | ok ra =>
          rw [ha] at h
          cases hrest : combineAll l with
          | error e => rw [hrest] at h; exact Except.noConfusion h
          | ok rs =>
              rw [hrest] at h
              cases h
              intro r hr
              cases hr with
              | head => exact ⟨a, List.mem_cons_self _ _, ha⟩
              | tail _ hr =>
                  obtain ⟨p, hp, hcp⟩ := ih hrest r hr
                  exact ⟨p, List.mem_cons_of_mem _ hp, hcp⟩

theorem parse_contents_mem {rows : List RawRow} {out : List NRow} {raw : RawRow}
    (h : parse_contents rows = .ok out) (hraw : raw ∈ rows)
    (hadm : admitRow (coerceRow raw) = true)
    {r : NRow} (hcomb : combineRow (parseDateTimeRow (coerceRow raw)) = .ok r) :
    r ∈ out := by
  apply combineAll_ok_mem h _ _ r hcomb
  apply List.mem_map_of_mem
  rw [List.mem_filter]
  exact ⟨List.mem_map_of_mem _ hraw, hadm⟩

theorem parse_contents_ok_elim {rows : List RawRow} {out : List NRow}
    (h : parse_contents rows = .ok out) :
    ∀ r ∈ out, ∃ raw ∈ rows,
      raw.species = some r.species ∧
      raw.localDate.bind parseDate = some r.date ∧
      raw.localTime.bind parseTime = some r.time ∧
      r.score = coercedNum raw.score ∧ r.count = coercedNum raw.count := by
  intro r hr
  obtain ⟨p, hp, hcomb⟩ := combineAll_ok_elim h r hr
  rw [List.mem_map] at hp
  obtain ⟨c, hc, rfl⟩ := hp
  rw [List.mem_filter] at hc
  obtain ⟨hc, hadm⟩ := hc
  rw [List.mem_map] at hc
  obtain ⟨raw, hraw, rfl⟩ := hc
  refine ⟨raw, hraw, ?_⟩
  unfold combineRow at hcomb
  unfold admitRow at hadm
  cases hsp : raw.species with
  | none => simp [coerceRow, hsp] at hadm
  | some sp =>
      cases hd : (parseDateTimeRow (coerceRow raw)).localDate with
      | none => rw [hd] at hcomb; cases hcomb
      | some d =>
          cases ht : (parseDateTimeRow (coerceRow raw)).localTime with
          | none => rw [hd, ht] at hcomb; simp at hcomb
          | some t =>
              rw [hd, ht] at hcomb
              simp only at hcomb
              by_cases hb : combineInBounds d t = true
              · rw [if_pos hb] at hcomb
                cases hcomb
                refine ⟨?_, hd, ht, rfl, rfl⟩
                show some sp = some (raw.species.getD "")
                rw [hsp]
                rfl
              · rw [if_neg hb] at hcomb
                exact Except.noConfusion hcomb

/-! ## Lemmas about grouped aggregation -/

theorem map_fst_groupByKey {κ : Type} [DecidableEq κ] (key : NRow → κ)
    (le : κ → κ → Prop) [DecidableRel le] (df : List NRow) :
    (groupByKey key le df).map Prod.fst = ((df.map key).dedup).insertionSort le := by
  unfold groupByKey
  rw [List.map_map]
  exact List.map_id _

theorem mem_keys_groupByKey {κ : Type} [DecidableEq κ] {key : NRow → κ}
    {le : κ → κ → Prop} [inst : DecidableRel le] {df : List NRow} {k : κ} :
    k ∈ (groupByKey key le df).map Prod.fst ↔ k ∈ df.map key := by
  rw [map_fst_groupByKey, List.mem_insertionSort, List.mem_dedup]

theorem mem_groupByKey {κ : Type} [DecidableEq κ] {key : NRow → κ}
    {le : κ → κ → Prop} [inst : DecidableRel le] {df : List NRow} {p : κ × ℚ} :
    p ∈ groupByKey key le df ↔ p.1 ∈ df.map key ∧ p.2 = keyTotal key df p.1 := by
  unfold groupByKey
  rw [List.mem_map]
  constructor
  · rintro ⟨k, hk, rfl⟩
    rw [List.mem_insertionSort, List.mem_dedup] at hk
    exact ⟨hk, rfl⟩
  · rintro ⟨h1, h2⟩
    refine ⟨p.1, ?_, ?_⟩
    · rw [List.mem_insertionSort, List.mem_dedup]
      exact h1
    · obtain ⟨a, b⟩ := p
      exact congrArg (Prod.mk a) h2.symm

theorem nodup_keys_groupByKey {κ : Type} [DecidableEq κ] (key : NRow → κ)
    (le : κ → κ → Prop) [inst : DecidableRel le] (df : List NRow) :
    ((groupByKey key le df).map Prod.fst).Nodup := by
  rw [map_fst_groupByKey]
  exact (List.perm_insertionSort le _).symm.nodup (List.nodup_dedup _)

theorem length_groupByKey {κ : Type} [DecidableEq κ] (key : NRow → κ)
    (le : κ → κ → Prop) [inst : DecidableRel le] (df : List NRow) :
    (groupByKey key le df).length = (df.map key).dedup.length := by
  unfold groupByKey
  rw [List.length_map]
  exact (List.perm_insertionSort le _).length_eq

theorem combineRow_ok {p : ParsedRow} {d : Date} {t : Time}
    (hd : p.localDate = some d) (ht : p.localTime = some t)
    (hb : combineInBounds d t = true) :
    combineRow p = .ok ⟨p.species, d, t, p.score, p.count⟩ := by
  unfold combineRow
  rw [hd, ht]
  exact if_pos hb

/-! ## The claims -/

/-- C10: when no payload has been uploaded yet (`contents is None`,
lines 152-155), the callback returns the placeholder empty figure for all
four views, an empty rare-species list and empty dropdown options — six
values, and ingestion is never invoked (the branch precedes the
`parse_contents` call of line 157). -/
theorem c10_no_upload_placeholders (min_score rarity_threshold : ℚ)
    (selected_month : String) (selected_species : Option (List String)) :
    update_dashboard none min_score rarity_threshold selected_month selected_species =
      .ok [.figure (.placeholder "Upload a CSV file to see data"),
           .figure (.placeholder "Upload a CSV file to see data"),
           .listItems [],
           .figure (.placeholder "Upload a CSV file to see data"),
           .figure (.placeholder "Upload a CSV file to see data"),
           .options []] := rfl

/-- Does a callback value carry the species-dropdown options? -/
def isOptionsOut : Out → Bool
  | .options _ => true
  | _ => false

/-- Does a callback value carry a line chart (the trend view's figure)? -/
def isLineFigOut : Out → Bool
  | .figure (.line _ _) => true
  | _ => false

def c1row : RawRow :=
  ⟨some "Robin", some "01-Jan-2024", some "08:00:00", some "0.9", some "5"⟩

def c1result : List Out :=
  [.figure (.placeholder "No data for selected month"),
   .figure (.placeholder "No data for selected month"),
   .listItems ["No data available for selected month"],
   .figure (.placeholder "No data for selected month")]

/-- C1 (code bug, app.py line 169): uploading a January row and selecting
"February" leaves the month filter with zero rows, and the short-circuit
branch runs — but it returns only FOUR values, not the six outputs the
callback declares (lines 139-144): the trend-view figure and the
species-dropdown options are simply missing from the return (no `Out.figure
(Fig.line ..)` and no `Out.options ..` element), so the claim's "every one
of the four views gets a no-data indicator plus an empty candidate list"
does not hold — Dash rejects the 4-tuple against the 6 declared outputs. -/
theorem c1_short_circuit_four_outputs :
    update_dashboard (some [c1row]) (1/2) 10 "February" none = .ok c1result ∧
    c1result.length = 4 ∧ callback_outputs.length = 6 ∧
    c1result.all (fun o => !(isOptionsOut o) && !(isLineFigOut o)) = true := by
  refine ⟨by with_unfolding_all rfl, rfl, rfl, by decide⟩

def c2goodRow : RawRow :=
  ⟨some "Robin", some "01-Jan-2024", some "08:00:00", some "0.9", some "5"⟩

def c2badRow : RawRow :=
  ⟨some "Robin", some "2024/01/01", some "09:00:00", some "0.9", some "3"⟩

/-- C2 (code bug, app.py lines 30-39): a row whose Local Date has the wrong
format ("2024/01/01") is NOT dropped by ingestion.  The `dropna` admission
check of line 30 runs BEFORE the date parse of line 33, so the malformed
row passes admission (second conjunct; its raw text cell is non-null), the
parse then coerces its date to NaT (third conjunct), and line 39's
`pd.Timestamp.combine` raises on the NaT — aborting the whole ingestion
(first conjunct) rather than dropping the one bad row and keeping the good
one, as the claim describes. -/
theorem c2_malformed_date_not_dropped :
    parse_contents [c2goodRow, c2badRow] = .error "Timestamp.combine raised on NaT" ∧
    admitRow (coerceRow c2badRow) = true ∧
    parseDate "2024/01/01" = none := by
  refine ⟨by with_unfolding_all rfl, by with_unfolding_all rfl, by with_unfolding_all rfl⟩

def c3rawNegScore : RawRow :=
  ⟨some "Robin", some "01-Jan-2024", some "08:00:00", some "-1", some "5"⟩

/-- C3 counterexample: numeric coercion does not enforce non-negativity.
The payload row with Score text "-1" is valid (ingestion accepts it), yet
the surviving normalized row has Score = -1 < 0, refuting "every row ...
has a finite Score ≥ 0". -/
theorem c3_counterexample_negative_score :
    parse_contents [c3rawNegScore] =
      .ok [⟨"Robin", ⟨2024, 1, 1⟩, ⟨8, 0, 0⟩, -1, 5⟩] ∧
    ¬(0 ≤ ((-1 : ℚ))) := by
  refine ⟨by with_unfolding_all rfl, by with_unfolding_all decide⟩

def c6dfZeroCount : List NRow :=
  [⟨"Crow", ⟨2024, 1, 1⟩, ⟨8, 0, 0⟩, 9/10, 0⟩]

/-- C6 counterexample: with rarity threshold 0 (so threshold ≤ 0) the
rarity view is NOT empty.  A species whose Count coerced to 0 (the
zero-fill policy) has summed Count 0 ≤ 0 and is retained, and the textual
listing shows "Crow: 0 sightings". -/
theorem c6_counterexample_zero_threshold :
    rare_counts c6dfZeroCount (1/2) 0 = [("Crow", 0)] ∧
    rare_list c6dfZeroCount (1/2) 0 = ["Crow: 0 sightings"] ∧
    rare_counts c6dfZeroCount (1/2) 0 ≠ [] := by
  refine ⟨by with_unfolding_all rfl, by with_unfolding_all rfl,
    by with_unfolding_all decide⟩

def c9rows : List RawRow :=
  [⟨some "Robin", some "01-Jan-2024", some "08:00:00", some "0.9", some "5"⟩,
   ⟨some "Robin", some "01-Jan-2024", some "09:00:00", some "0.9", some "3"⟩,
   ⟨some "Crow", some "01-Jan-2024", some "08:00:00", some "0.95", some "1"⟩]

def c9df : List NRow :=
  [⟨"Robin", ⟨2024, 1, 1⟩, ⟨8, 0, 0⟩, 9/10, 5⟩,
   ⟨"Robin", ⟨2024, 1, 1⟩, ⟨9, 0, 0⟩, 9/10, 3⟩,
   ⟨"Crow", ⟨2024, 1, 1⟩, ⟨8, 0, 0⟩, 95/100, 1⟩]

/-- C3 (amended): for every payload that ingestion accepts, every normalized
row has a non-null Species, and its Score, Count and timestamp all come from
that same row: there is a single raw input row supplying the species text,
the date whose parse is the row's date, the time whose parse is the row's
time, and the numeric texts whose coercion (failed parses becoming 0) gives
the row's Score and Count.  Score ≥ 0 and Count ≥ 0 hold PROVIDED each raw
row's numeric cells coerce to non-negative values — the coercion itself does
not enforce the sign, so a parseable negative Score survives (see the
counterexample). -/
theorem c3_normalized_row_invariants (rows : List RawRow) (out : List NRow)
    (hok : parse_contents rows = .ok out)
    (hnn : ∀ raw ∈ rows, 0 ≤ coercedNum raw.score ∧ 0 ≤ coercedNum raw.count) :
    ∀ r ∈ out, 0 ≤ r.score ∧ 0 ≤ r.count ∧
      ∃ raw ∈ rows, raw.species = some r.species ∧
        raw.localDate.bind parseDate = some r.date ∧
        raw.localTime.bind parseTime = some r.time ∧
        r.score = coercedNum raw.score ∧ r.count = coercedNum raw.count := by
  intro r hr
  obtain ⟨raw, hraw, h1, h2, h3, h4, h5⟩ := parse_contents_ok_elim hok r hr
  obtain ⟨hs, hc⟩ := hnn raw hraw
  exact ⟨by rw [h4]; exact hs, by rw [h5]; exact hc, raw, hraw, h1, h2, h3, h4, h5⟩

def c3wRaw : RawRow :=
  ⟨some "Robin", some "01-Jan-2024", some "08:00:00", some "0.9", some "5"⟩

def c3wRow : NRow := ⟨"Robin", ⟨2024, 1, 1⟩, ⟨8, 0, 0⟩, 9/10, 5⟩

theorem c3_normalized_row_invariants_witness :
    0 ≤ c3wRow.score ∧ 0 ≤ c3wRow.count ∧
      ∃ raw ∈ [c3wRaw], raw.species = some c3wRow.species ∧
        raw.localDate.bind parseDate = some c3wRow.date ∧
        raw.localTime.bind parseTime = some c3wRow.time ∧
        c3wRow.score = coercedNum raw.score ∧ c3wRow.count = coercedNum raw.count :=
  c3_normalized_row_invariants [c3wRaw] [c3wRow]
    (by with_unfolding_all rfl) (by with_unfolding_all decide)
    c3wRow (List.mem_singleton.mpr rfl)

/-- C4: numeric coercion substitutes 0 for an unparseable Score or Count
text instead of rejecting the row, and Count plays no part in the admission
check of line 30 (changing the Count cell never changes admission, second
conjunct): a row with unparseable Count but present Species and Score and
validly parsing Local Date and Local Time survives into the normalized
record set with Count = 0 (first conjunct). -/
theorem c4_unparseable_count_survives (rows : List RawRow) (out : List NRow)
    (raw : RawRow) (sp cs : String) (d : Date) (t : Time)
    (hok : parse_contents rows = .ok out)
    (hmem : raw ∈ rows)
    (hsp : raw.species = some sp)
    (hd : raw.localDate.bind parseDate = some d)
    (ht : raw.localTime.bind parseTime = some t)
    (hb : combineInBounds d t = true)
    (hcs : raw.count = some cs)
    (hfail : parseNumeric cs = none) :
    (⟨sp, d, t, coercedNum raw.score, 0⟩ : NRow) ∈ out ∧
    (∀ c', admitRow (coerceRow { raw with count := c' }) = admitRow (coerceRow raw)) := by
  have hadm : admitRow (coerceRow raw) = true := by
    show (raw.species.isSome && raw.localDate.isSome && raw.localTime.isSome) = true
    rw [hsp]
    cases hld : raw.localDate with
    | none => rw [hld] at hd; exact Option.noConfusion hd
    | some sld =>
        cases hlt : raw.localTime with
        | none => rw [hlt] at ht; exact Option.noConfusion ht
        | some slt => rfl
  constructor
  · have hd' : (parseDateTimeRow (coerceRow raw)).localDate = some d := hd
    have ht' : (parseDateTimeRow (coerceRow raw)).localTime = some t := ht
    have hcomb : combineRow (parseDateTimeRow (coerceRow raw)) =
        .ok ⟨sp, d, t, coercedNum raw.score, 0⟩ := by
      rw [combineRow_ok hd' ht' hb]
      show Except.ok (⟨raw.species.getD "", d, t, coercedNum raw.score,
        (raw.count.bind parseNumeric).getD 0⟩ : NRow) = _
      rw [hsp, hcs]
      show Except.ok (⟨sp, d, t, coercedNum raw.score, (parseNumeric cs).getD 0⟩ : NRow) = _
      rw [hfail]
      rfl
    exact parse_contents_mem hok hmem hadm hcomb
  · intro c'
    rfl

def c4wRaw : RawRow :=
  ⟨some "Robin", some "01-Jan-2024", some "08:00:00", some "0.9", some "abc"⟩

theorem c4_unparseable_count_survives_witness :
    (⟨"Robin", ⟨2024, 1, 1⟩, ⟨8, 0, 0⟩, coercedNum c4wRaw.score, 0⟩ : NRow) ∈
        ([⟨"Robin", ⟨2024, 1, 1⟩, ⟨8, 0, 0⟩, 9/10, 0⟩] : List NRow) ∧
    (∀ c', admitRow (coerceRow { c4wRaw with count := c' }) =
        admitRow (coerceRow c4wRaw)) :=
  c4_unparseable_count_survives [c4wRaw]
    [⟨"Robin", ⟨2024, 1, 1⟩, ⟨8, 0, 0⟩, 9/10, 0⟩]
    c4wRaw "Robin" "abc" ⟨2024, 1, 1⟩ ⟨8, 0, 0⟩
    (by with_unfolding_all rfl) (List.mem_singleton.mpr rfl)
    (by with_unfolding_all rfl) (by with_unfolding_all rfl)
    (by with_unfolding_all rfl) (by with_unfolding_all rfl)
    (by with_unfolding_all rfl) (by with_unfolding_all rfl)

/-- C6 (amended): the rarity view contains exactly the species of the
score-filtered set whose summed Count is at most the rarity threshold
(inclusive), sorted ascending by summed count, and the textual listing has
one "Species: N sightings" entry per retained species in that same order.
The view is empty when every species' summed count exceeds the threshold;
but threshold ≤ 0 alone does NOT force emptiness, because a summed Count
can be 0 (zero-fill coercion) or negative and is then retained — see the
counterexample. -/
theorem c6_rarity_view (df : List NRow) (min_score rarity_threshold : ℚ) :
    (∀ p : String × ℚ, p ∈ rare_counts df min_score rarity_threshold ↔
        (p.1 ∈ (scoreFilter df min_score).map NRow.species ∧
         p.2 = speciesTotal (scoreFilter df min_score) p.1 ∧
         p.2 ≤ rarity_threshold)) ∧
    ((rare_counts df min_score rarity_threshold).map Prod.snd).Sorted (· ≤ ·) ∧
    rare_list df min_score rarity_threshold =
      (rare_counts df min_score rarity_threshold).map rareEntry ∧
    ((∀ s ∈ (scoreFilter df min_score).map NRow.species,
        rarity_threshold < speciesTotal (scoreFilter df min_score) s) →
      rare_counts df min_score rarity_threshold = []) := by
  have hmem : ∀ p : String × ℚ, p ∈ rare_counts df min_score rarity_threshold ↔
      (p.1 ∈ (scoreFilter df min_score).map NRow.species ∧
       p.2 = speciesTotal (scoreFilter df min_score) p.1 ∧
       p.2 ≤ rarity_threshold) := by
    intro p
    unfold rare_counts groupSpecies
    rw [List.mem_insertionSort, List.mem_filter, mem_groupByKey]
    constructor
    · rintro ⟨⟨h1, h2⟩, h3⟩
      exact ⟨h1, h2, of_decide_eq_true h3⟩
    · rintro ⟨h1, h2, h3⟩
      exact ⟨⟨h1, h2⟩, decide_eq_true h3⟩
  refine ⟨hmem, ?_, rfl, ?_⟩
  · exact List.pairwise_map.mpr
      (List.sorted_insertionSort countLe
        ((groupSpecies (scoreFilter df min_score)).filter
          (fun p => decide (p.2 ≤ rarity_threshold))))
  · intro hall
    rw [List.eq_nil_iff_forall_not_mem]
    intro p hp
    rw [hmem p] at hp
    exact absurd (hp.2.1 ▸ hp.2.2) (not_le.mpr (hall p.1 hp.1))

def c6wdf : List NRow := [⟨"Crow", ⟨2024, 1, 1⟩, ⟨8, 0, 0⟩, 9/10, 5⟩]

theorem c6_rarity_view_witness :
    rare_counts c6wdf (1/2) 2 = [] :=
  (c6_rarity_view c6wdf (1/2) 2).2.2.2 (by with_unfolding_all decide)

/-- C7: the activity heatmap is computed from the month-filtered rows
re-filtered by Score ≥ threshold, grouped by (weekday name, hour) with
Count summed: its keys are exactly the (weekday, hour) pairs present in
that score-and-month-filtered data; they are sorted by the weekday's
position in `weekday_order` (Monday→Sunday, not alphabetically) and then by
hour ascending; and each entry's value is the summed Count of its key. -/
theorem c7_heatmap (df : List NRow) (selected_month : String) (min_score : ℚ) :
    (∀ k : String × Nat,
        k ∈ (activity (monthFilter df selected_month) min_score).map Prod.fst ↔
          ∃ r ∈ scoreFilter (monthFilter df selected_month) min_score, heatKey r = k) ∧
    ((activity (monthFilter df selected_month) min_score).map Prod.fst).Sorted catLe ∧
    (∀ e ∈ activity (monthFilter df selected_month) min_score,
        e.2 = keyTotal heatKey (scoreFilter (monthFilter df selected_month) min_score) e.1) := by
  refine ⟨?_, ?_, ?_⟩
  · intro k
    unfold activity
    rw [mem_keys_groupByKey, List.mem_map]
  · unfold activity
    rw [map_fst_groupByKey]
    exact List.sorted_insertionSort catLe _
  · intro e he
    unfold activity at he
    exact (mem_groupByKey.mp he).2

def c7wdf : List NRow := [⟨"Robin", ⟨2024, 1, 1⟩, ⟨8, 0, 0⟩, 9/10, 5⟩]

theorem c7_heatmap_witness :
    ("Monday", 8) ∈ (activity (monthFilter c7wdf "All") (1/2)).map Prod.fst :=
  ((c7_heatmap c7wdf "All" (1/2)).1 ("Monday", 8)).mpr
    ⟨⟨"Robin", ⟨2024, 1, 1⟩, ⟨8, 0, 0⟩, 9/10, 5⟩, by with_unfolding_all decide,
      by with_unfolding_all rfl⟩

theorem mem_groupSpecies {df : List NRow} {p : String × ℚ} :
    p ∈ groupSpecies df ↔ p.1 ∈ df.map NRow.species ∧ p.2 = speciesTotal df p.1 :=
  mem_groupByKey

theorem length_groupSpecies (df : List NRow) :
    (groupSpecies df).length = ((df.map NRow.species).dedup).length :=
  length_groupByKey NRow.species strLe df

theorem nodup_keys_groupSpecies (df : List NRow) :
    ((groupSpecies df).map Prod.fst).Nodup :=
  nodup_keys_groupByKey NRow.species strLe df

/-- The shape of the `head(10)` candidate computation of line 212 over an
arbitrary frame: its length, distinctness, membership, descending totals,
and the top-10 boundary property (no outside species strictly beats an
inside one). -/
theorem candidates_spec (mdf : List NRow) :
    (all_species mdf).length = min 10 ((mdf.map NRow.species).dedup).length ∧
    (all_species mdf).Nodup ∧
    (∀ s ∈ all_species mdf, s ∈ mdf.map NRow.species) ∧
    ((all_species mdf).map (speciesTotal mdf)).Sorted (fun a b => b ≤ a) ∧
    (∀ s, s ∈ mdf.map NRow.species → s ∉ all_species mdf →
        ∀ c ∈ all_species mdf, speciesTotal mdf s ≤ speciesTotal mdf c) := by
  refine ⟨?_, ?_, ?_, ?_, ?_⟩
  · show ((((groupSpecies mdf).insertionSort countGe).take 10).map Prod.fst).length = _
    rw [List.length_map, List.length_take, (List.perm_insertionSort countGe _).length_eq,
        length_groupSpecies]
  · show ((((groupSpecies mdf).insertionSort countGe).take 10).map Prod.fst).Nodup
    rw [List.map_take]
    apply List.Nodup.sublist (List.take_sublist _ _)
    exact ((List.perm_insertionSort countGe _).map Prod.fst).symm.nodup
      (nodup_keys_groupSpecies mdf)
  · intro s hs
    unfold all_species at hs
    rw [List.mem_map] at hs
    obtain ⟨p, hp, rfl⟩ := hs
    have hpG : p ∈ groupSpecies mdf :=
      (List.perm_insertionSort countGe _).subset ((List.take_sublist _ _).subset hp)
    exact (mem_groupSpecies.mp hpG).1
  · show List.Pairwise _ (((((groupSpecies mdf).insertionSort countGe).take 10).map
      Prod.fst).map (speciesTotal mdf))
    rw [List.map_map, List.pairwise_map]
    have hPS : (((groupSpecies mdf).insertionSort countGe).take 10).Pairwise countGe :=
      List.Pairwise.sublist (List.take_sublist _ _) (List.sorted_insertionSort countGe _)
    apply List.Pairwise.imp_of_mem ?_ hPS
    intro a b ha hb hab
    have haG := mem_groupSpecies.mp
      ((List.perm_insertionSort countGe _).subset ((List.take_sublist _ _).subset ha))
    have hbG := mem_groupSpecies.mp
      ((List.perm_insertionSort countGe _).subset ((List.take_sublist _ _).subset hb))
    show speciesTotal mdf b.1 ≤ speciesTotal mdf a.1
    rw [← haG.2, ← hbG.2]
    exact hab
  · intro s hs hns c hc
    unfold all_species at hc hns
    rw [List.mem_map] at hc
    obtain ⟨pc, hpc, rfl⟩ := hc
    have hsP : (s, speciesTotal mdf s) ∈ (groupSpecies mdf).insertionSort countGe := by
      rw [List.mem_insertionSort]
      exact mem_groupSpecies.mpr ⟨hs, rfl⟩
    have hsNT : (s, speciesTotal mdf s) ∉
        ((groupSpecies mdf).insertionSort countGe).take 10 := by
      intro hmem
      exact hns (List.mem_map.mpr ⟨_, hmem, rfl⟩)
    have hsplit := List.take_append_drop 10 ((groupSpecies mdf).insertionSort countGe)
    have hsD : (s, speciesTotal mdf s) ∈
        ((groupSpecies mdf).insertionSort countGe).drop 10 := by
      rcases List.mem_append.mp (by rw [hsplit]; exact hsP) with h | h
      · exact absurd h hsNT
      · exact h
    have hpw : List.Pairwise countGe
        ((((groupSpecies mdf).insertionSort countGe).take 10) ++
          (((groupSpecies mdf).insertionSort countGe).drop 10)) := by
      rw [hsplit]
      exact List.sorted_insertionSort countGe _
    have hpair : countGe pc (s, speciesTotal mdf s) :=
      (List.pairwise_append.mp hpw).2.2 pc hpc _ hsD
    have hcG := mem_groupSpecies.mp
      ((List.perm_insertionSort countGe _).subset ((List.take_sublist _ _).subset hpc))
    calc speciesTotal mdf s ≤ pc.2 := hpair
      _ = speciesTotal mdf pc.1 := hcG.2

/-- C8: the species candidate list is the top 10 species by total Count over
the month-filtered set (score filter not applied), descending: it has
min(10, distinct species) entries, all distinct and present in the set,
its totals are non-increasing, and no species left out has a strictly
larger total than one kept; and when the user selected no species the trend
view uses exactly the first 3 candidates (or fewer if fewer exist): a
species appears in the trend output precisely when it is one of those
first 3. -/
theorem c8_candidates_and_trend (df : List NRow) (selected_month : String) :
    ((all_species (monthFilter df selected_month)).length =
        min 10 (((monthFilter df selected_month).map NRow.species).dedup).length) ∧
    (all_species (monthFilter df selected_month)).Nodup ∧
    (∀ s ∈ all_species (monthFilter df selected_month),
        s ∈ (monthFilter df selected_month).map NRow.species) ∧
    ((all_species (monthFilter df selected_month)).map
        (speciesTotal (monthFilter df selected_month))).Sorted (fun a b => b ≤ a) ∧
    (∀ s, s ∈ (monthFilter df selected_month).map NRow.species →
        s ∉ all_species (monthFilter df selected_month) →
        ∀ c ∈ all_species (monthFilter df selected_month),
          speciesTotal (monthFilter df selected_month) s ≤
            speciesTotal (monthFilter df selected_month) c) ∧
    (∀ s, (∃ e ∈ trend_summary (monthFilter df selected_month)
            ((all_species (monthFilter df selected_month)).take 3), e.1.2 = s) ↔
        s ∈ (all_species (monthFilter df selected_month)).take 3) := by
  obtain ⟨h1, h2, h3, h4, h5⟩ := candidates_spec (monthFilter df selected_month)
  refine ⟨h1, h2, h3, h4, h5, ?_⟩
  intro s
  constructor
  · rintro ⟨e, he, rfl⟩
    unfold trend_summary at he
    have hk := (mem_groupByKey.mp he).1
    rw [List.mem_map] at hk
    obtain ⟨r, hr, hkey⟩ := hk
    rw [List.mem_filter] at hr
    rw [← hkey]
    exact List.elem_iff.mp hr.2
  · intro hs3
    have hsc : s ∈ all_species (monthFilter df selected_month) :=
      (List.take_sublist _ _).subset hs3
    have hsm := h3 s hsc
    rw [List.mem_map] at hsm
    obtain ⟨r, hr, rfl⟩ := hsm
    have hrT : r ∈ (monthFilter df selected_month).filter
        (fun x => ((all_species (monthFilter df selected_month)).take 3).contains
          x.species) := by
      rw [List.mem_filter]
      exact ⟨hr, List.elem_iff.mpr hs3⟩
    refine ⟨(trendKey r,
      keyTotal trendKey ((monthFilter df selected_month).filter
        (fun x => ((all_species (monthFilter df selected_month)).take 3).contains
          x.species)) (trendKey r)), ?_, rfl⟩
    unfold trend_summary
    exact mem_groupByKey.mpr ⟨List.mem_map_of_mem _ hrT, rfl⟩

def c8wdf : List NRow :=
  [⟨"Robin", ⟨2024, 1, 1⟩, ⟨8, 0, 0⟩, 9/10, 5⟩,
   ⟨"Crow", ⟨2024, 1, 1⟩, ⟨9, 0, 0⟩, 9/10, 2⟩]

theorem c8_candidates_and_trend_witness :
    ∃ e ∈ trend_summary (monthFilter c8wdf "All")
        ((all_species (monthFilter c8wdf "All")).take 3), e.1.2 = "Robin" :=
  (((c8_candidates_and_trend c8wdf "All").2.2.2.2.2) "Robin").mpr
    (by with_unfolding_all decide)

/-- C9: on the three-row scenario payload with minimum score 0.5 the Top-20
view is Robin = 8, Crow = 1 in descending order, and with rarity threshold
2 the rarity view lists only Crow, with text entry "Crow: 1 sightings". -/
theorem c9_scenario :
    parse_contents c9rows = .ok c9df ∧
    top_counts c9df (1/2) = [("Robin", 8), ("Crow", 1)] ∧
    rare_counts c9df (1/2) 2 = [("Crow", 1)] ∧
    rare_list c9df (1/2) 2 = ["Crow: 1 sightings"] := by
  refine ⟨by with_unfolding_all rfl, by with_unfolding_all rfl,
    by with_unfolding_all rfl, by with_unfolding_all rfl⟩

end HaikuBox
